import Mathlib

/-!
Verification of the planning-poker coordination core
(`packages/poker`, `packages/session`, `packages/websocket`).

Rust `HashMap<K, V>` fields are embedded as association lists with
lookup/insert/remove operations mirroring the `HashMap` API: `insert`
replaces the entry of an existing key, `remove` deletes it.  `Uuid`
keys become `Nat`, timestamps become `Nat`, error values of `anyhow`
become a small error enum naming the message raised at each `Err` site.
-/

set_option autoImplicit false
set_option linter.unusedVariables false

universe u v

/-- Lookup of the first entry with key `k`, as `HashMap::get`. -/
def alLookup {κ : Type u} {α : Type v} [DecidableEq κ] : List (κ × α) → κ → Option α
  | [], _ => none
  | (k', v) :: t, k => if k' = k then some v else alLookup t k

/-- Insertion as `HashMap::insert`: replace the entry of an existing key
in place, otherwise append a fresh entry. -/
def alInsert {κ : Type u} {α : Type v} [DecidableEq κ] : List (κ × α) → κ → α → List (κ × α)
  | [], k, v => [(k, v)]
  | (k', v') :: t, k, v =>
      if k' = k then (k, v) :: t else (k', v') :: alInsert t k v

/-- Removal as `HashMap::remove` (on maps without duplicate keys this
deletes the single entry of the key). -/
def alRemove {κ : Type u} {α : Type v} [DecidableEq κ] (l : List (κ × α)) (k : κ) : List (κ × α) :=
  l.filter (fun e => e.1 != k)

/-- Key membership as `HashMap::contains_key`. -/
def alContains {κ : Type u} {α : Type v} [DecidableEq κ] (l : List (κ × α)) (k : κ) : Bool :=
  (alLookup l k).isSome

theorem alLookup_alInsert {κ : Type u} {α : Type v} [DecidableEq κ]
    (l : List (κ × α)) (k : κ) (v : α) (k' : κ) :
    alLookup (alInsert l k v) k' = if k = k' then some v else alLookup l k' := by
  induction l with
  | nil => simp [alInsert, alLookup]
  | cons e t ih =>
      obtain ⟨ek, ev⟩ := e
      by_cases hek : ek = k
      · subst hek
        by_cases hk' : ek = k'
        · subst hk'
          simp [alInsert, alLookup]
        · simp [alInsert, alLookup, hk']
      · by_cases hk' : ek = k'
        · subst hk'
          have : ¬ k = ek := fun h => hek h.symm
          simp [alInsert, alLookup, hek, this]
        · simp [alInsert, alLookup, hek, hk', ih]

theorem alLookup_alRemove {κ : Type u} {α : Type v} [DecidableEq κ]
    (l : List (κ × α)) (k k' : κ) :
    alLookup (alRemove l k) k' = if k = k' then none else alLookup l k' := by
  induction l with
  | nil => simp [alRemove, alLookup]
  | cons e t ih =>
      obtain ⟨ek, ev⟩ := e
      by_cases hek : ek = k
      · subst hek
        by_cases hk' : ek = k'
        · subst hk'
          simpa [alRemove, alLookup] using ih
        · have : ¬ ek = k' := hk'
          simp [alRemove, alLookup, this] at ih ⊢
          simpa [this] using ih
      · by_cases hk' : ek = k'
        · subst hk'
          have hne : ¬ k = ek := fun h => hek h.symm
          simp [alRemove, alLookup, hek, hne, ih]
        · simpa [alRemove, alLookup, hek, hk'] using ih

/-! ## Data model (`packages/models/src/lib.rs`) -/

/-- `GameState` from `packages/models`. -/
inductive GameState where
  | Waiting
  | Voting
  | Revealed
deriving DecidableEq

/-- `Player` from `packages/models` (`joined_at` timestamp as `Nat`). -/
structure Player where
  id : Nat
  name : String
  is_observer : Bool
  joined_at : Nat
deriving DecidableEq

/-- `Vote` from `packages/models` (`cast_at` timestamp as `Nat`). -/
structure Vote where
  player_id : Nat
  player_name : String
  value : String
  cast_at : Nat
deriving DecidableEq

/-- `VotingSystem` from `packages/poker`. -/
inductive VotingSystem where
  | Fibonacci
  | TShirtSizes
  | PowersOfTwo
  | Custom (options : List String)
deriving DecidableEq

/-- Error values produced by the poker state machine; each constructor
names the `anyhow!` message raised at the corresponding `Err` site:
`invalidTransition` for state-machine violations, `playerNotFound`
for a vote by a player absent from the roster. -/
inductive PokerErr where
  | invalidTransition
  | playerNotFound
deriving DecidableEq

/-! ## `PlanningPokerGame` (`packages/poker/src/lib.rs`) -/

/-- `PlanningPokerGame`; the `players` and `votes` `HashMap`s are
association lists keyed by player id. -/
structure PlanningPokerGame where
  id : Nat
  name : String
  owner_id : Nat
  state : GameState
  players : List (Nat × Player)
  votes : List (Nat × Vote)
  current_story : Option String
  voting_system : VotingSystem
deriving DecidableEq

/-- `PlanningPokerGame::add_player`: unconditional roster insert, `Ok(())`. -/
def PlanningPokerGame.add_player (g : PlanningPokerGame) (player : Player) :
    Except PokerErr PlanningPokerGame :=
  .ok { g with players := alInsert g.players player.id player }

/-- `PlanningPokerGame::remove_player`: drop the roster entry and the
vote of the player, `Ok(())`. -/
def PlanningPokerGame.remove_player (g : PlanningPokerGame) (player_id : Nat) :
    Except PokerErr PlanningPokerGame :=
  .ok { g with players := alRemove g.players player_id,
               votes := alRemove g.votes player_id }

/-- `PlanningPokerGame::start_voting`. -/
def PlanningPokerGame.start_voting (g : PlanningPokerGame) (story : String) :
    Except PokerErr PlanningPokerGame :=
  if g.state ≠ GameState.Waiting then
    .error .invalidTransition
  else
    .ok { g with current_story := some story, state := GameState.Voting, votes := [] }

/-- `PlanningPokerGame::cast_vote`. -/
def PlanningPokerGame.cast_vote (g : PlanningPokerGame) (player_id : Nat) (vote : Vote) :
    Except PokerErr PlanningPokerGame :=
  if g.state ≠ GameState.Voting then
    .error .invalidTransition
  else if ¬ alContains g.players player_id then
    .error .playerNotFound
  else
    .ok { g with votes := alInsert g.votes player_id vote }

/-- `PlanningPokerGame::reveal_votes`. -/
def PlanningPokerGame.reveal_votes (g : PlanningPokerGame) :
    Except PokerErr PlanningPokerGame :=
  if g.state ≠ GameState.Voting then
    .error .invalidTransition
  else
    .ok { g with state := GameState.Revealed }

/-- `PlanningPokerGame::reset_voting`. -/
def PlanningPokerGame.reset_voting (g : PlanningPokerGame) :
    Except PokerErr PlanningPokerGame :=
  .ok { g with state := GameState.Waiting, votes := [], current_story := none }

/-- `PlanningPokerGame::is_owner`. -/
def PlanningPokerGame.is_owner (g : PlanningPokerGame) (player_id : Nat) : Bool :=
  g.owner_id == player_id

/-- `PlanningPokerGame::all_players_voted`. -/
def PlanningPokerGame.all_players_voted (g : PlanningPokerGame) : Bool :=
  g.players.length == g.votes.length

/-- Sequential run of `cast_vote` over a list of `(player, vote)` calls,
stopping at the first error (the `?`-propagation a caller would do). -/
def castAll (g : PlanningPokerGame) : List (Nat × Vote) → Except PokerErr PlanningPokerGame
  | [] => .ok g
  | (p, v) :: rest =>
      match g.cast_vote p v with
      | .error e => .error e
      | .ok g' => castAll g' rest

/-- The vote of player `p` that a sequence of casts leaves behind:
the value of the last cast by `p`, if any. -/
def lastCastBy : List (Nat × Vote) → Nat → Option Vote
  | [], _ => none
  | (q, v) :: rest, p =>
      match lastCastBy rest p with
      | some w => some w
      | none => if q = p then some v else none

/-! ## Persistent store rows (`packages/session/src/lib.rs`)

The database is embedded as in-memory lists of rows; each
`DatabaseSessionManager` method becomes the corresponding pure update. -/

/-- A row of the `games` table (the `state` column is the string the
code writes: one of the words Waiting, Voting, Revealed). -/
structure GameRow where
  id : Nat
  name : String
  owner_id : Nat
  voting_system : String
  state : String
  current_story : Option String
deriving DecidableEq

/-- A row of the `players` table. -/
structure PlayerRow where
  id : Nat
  game_id : Nat
  name : String
  is_observer : Bool
deriving DecidableEq

/-- A row of the `votes` table. -/
structure VoteRow where
  game_id : Nat
  player_id : Nat
  player_name : String
  value : String
  cast_at : Nat
deriving DecidableEq

/-- The database contents seen by `DatabaseSessionManager`. -/
structure Store where
  games : List GameRow
  players : List PlayerRow
  votes : List VoteRow
deriving DecidableEq

/-- `DatabaseSessionManager::clear_game_votes`: delete the vote rows of
the game. -/
def Store.clear_game_votes (s : Store) (game_id : Nat) : Store :=
  { s with votes := s.votes.filter (fun v => v.game_id != game_id) }

/-- `DatabaseSessionManager::get_game_votes`: the vote rows of the game. -/
def Store.get_game_votes (s : Store) (game_id : Nat) : List VoteRow :=
  s.votes.filter (fun v => v.game_id == game_id)

/-- `DatabaseSessionManager::cast_vote`: delete any prior vote of the
player in the game, then insert the new row. -/
def Store.cast_vote (s : Store) (game_id : Nat) (vote : VoteRow) : Store :=
  { s with votes :=
      s.votes.filter (fun w => !(w.game_id == game_id && w.player_id == vote.player_id))
        ++ [vote] }

/-- `DatabaseSessionManager::start_voting`: update the game row to
state Voting with the story (never called from the websocket path). -/
def Store.start_voting (s : Store) (game_id : Nat) (story : String) : Store :=
  { s with games := s.games.map (fun g =>
      if g.id = game_id then { g with state := "Voting", current_story := some story } else g) }

/-- `DatabaseSessionManager::reveal_votes`: update the game row to
state Revealed (never called from the websocket path). -/
def Store.reveal_votes (s : Store) (game_id : Nat) : Store :=
  { s with games := s.games.map (fun g =>
      if g.id = game_id then { g with state := "Revealed" } else g) }

/-- `DatabaseSessionManager::reset_voting`: delete the vote rows of the
game, then update the game row to state Waiting with no story. -/
def Store.reset_voting (s : Store) (game_id : Nat) : Store :=
  { s with
    votes := s.votes.filter (fun v => v.game_id != game_id),
    games := s.games.map (fun g =>
      if g.id = game_id then { g with state := "Waiting", current_story := none } else g) }

/-- `DatabaseSessionManager::remove_player_from_game`: the body is a
TODO that only logs, so the store is returned unchanged. -/
def Store.remove_player_from_game (s : Store) (game_id player_id : Nat) : Store :=
  s

/-! ## Connection layer (`packages/websocket/src/lib.rs`) -/

/-- `Connection` (the outbound `sender` channel is dropped: delivery is
modelled as the list of `(recipient, message)` pairs a handler emits). -/
structure Connection where
  id : String
  player_id : Option Nat
  game_id : Option Nat
deriving DecidableEq

/-- Outbound `ServerMessage` constructors used by the modelled handlers. -/
inductive ServerMsg where
  | playerLeft (player_id : Nat)
  | votingStarted (story : String)
  | voteCast (player_id : Nat) (has_voted : Bool)
  | votesRevealed (votes : List VoteRow)
  | votingReset
deriving DecidableEq

/-- The `ConnectionManager` map plus the session-manager store behind it. -/
structure WsState where
  conns : List (String × Connection)
  store : Store
deriving DecidableEq

/-- The recipient set computed by `ConnectionManager::broadcast_to_game`:
every registered connection whose `game_id` equals the game, except the
excluded connection id. -/
def broadcastRecipients (conns : List (String × Connection)) (game_id : Nat)
    (exclude_connection : Option String) : List String :=
  (conns.filter (fun e => e.2.game_id == some game_id && some e.1 != exclude_connection)).map
    (fun e => e.1)

/-- Pair every recipient with the broadcast message. -/
def sendAll (recipients : List String) (m : ServerMsg) : List (String × ServerMsg) :=
  recipients.map (fun c => (c, m))

/-- `ConnectionManager::add_connection`: insert a fresh unbound
connection under the id (a `HashMap::insert`, so an existing entry of
the same id is replaced; the method has no error path). -/
def add_connection (conns : List (String × Connection)) (connection_id : String) :
    List (String × Connection) :=
  alInsert conns connection_id
    { id := connection_id, player_id := none, game_id := none }

/-- `ConnectionManager::handle_leave_game`.  An unknown connection id
returns `Ok(())` at once; a connection without both bindings falls
through to `Ok(())` with no effect.  (`remove_player_from_game` is the
store's logged no-op.) -/
def handle_leave_game (s : WsState) (connection_id : String) :
    Except String (WsState × List (String × ServerMsg)) :=
  match alLookup s.conns connection_id with
  | none => .ok (s, [])
  | some conn =>
      match conn.game_id, conn.player_id with
      | some game_id, some player_id =>
          .ok ({ s with store := s.store.remove_player_from_game game_id player_id },
               sendAll (broadcastRecipients s.conns game_id (some connection_id))
                 (ServerMsg.playerLeft player_id))
      | _, _ => .ok (s, [])

/-- `ConnectionManager::handle_cast_vote`.  The source constructs the
vote with the caller's bound player id and the given value (the struct
literal in the source carries no `player_name` field; the model uses
the empty string) and broadcasts `VoteCast` with the value withheld. -/
def handle_cast_vote (s : WsState) (connection_id : String) (value : String) (now : Nat) :
    Except String (WsState × List (String × ServerMsg)) :=
  match alLookup s.conns connection_id with
  | none => .ok (s, [])
  | some conn =>
      match conn.game_id, conn.player_id with
      | some game_id, some player_id =>
          let vote : VoteRow :=
            { game_id := game_id, player_id := player_id, player_name := "",
              value := value, cast_at := now }
          .ok ({ s with store := s.store.cast_vote game_id vote },
               sendAll (broadcastRecipients s.conns game_id none)
                 (ServerMsg.voteCast player_id true))
      | _, _ => .ok (s, [])

/-- `ConnectionManager::handle_start_voting`: look up the caller's bound
game; if bound, clear that game's vote rows and broadcast
`VotingStarted` to every connection of the game (no exclusion).  The
source never calls `SessionManager::start_voting`, so the game row is
not touched. -/
def handle_start_voting (s : WsState) (connection_id : String) (story : String) :
    Except String (WsState × List (String × ServerMsg)) :=
  match (alLookup s.conns connection_id).bind (fun c => c.game_id) with
  | none => .ok (s, [])
  | some game_id =>
      .ok ({ s with store := s.store.clear_game_votes game_id },
           sendAll (broadcastRecipients s.conns game_id none)
             (ServerMsg.votingStarted story))

/-- `ConnectionManager::handle_reveal_votes`: look up the caller's bound
game; if bound, read the game's vote rows and broadcast `VotesRevealed`
to every connection of the game.  The source checks no game state and
never calls `SessionManager::reveal_votes`, so the store is unchanged. -/
def handle_reveal_votes (s : WsState) (connection_id : String) :
    Except String (WsState × List (String × ServerMsg)) :=
  match (alLookup s.conns connection_id).bind (fun c => c.game_id) with
  | none => .ok (s, [])
  | some game_id =>
      .ok (s, sendAll (broadcastRecipients s.conns game_id none)
           (ServerMsg.votesRevealed (s.store.get_game_votes game_id)))

/-- `ConnectionManager::handle_reset_voting`: look up the caller's bound
game; if bound, clear that game's vote rows and broadcast `VotingReset`.
The source never calls `SessionManager::reset_voting`, so the game row
is not touched. -/
def handle_reset_voting (s : WsState) (connection_id : String) :
    Except String (WsState × List (String × ServerMsg)) :=
  match (alLookup s.conns connection_id).bind (fun c => c.game_id) with
  | none => .ok (s, [])
  | some game_id =>
      .ok ({ s with store := s.store.clear_game_votes game_id },
           sendAll (broadcastRecipients s.conns game_id none)
             (ServerMsg.votingReset))

/-! ## Concrete inputs used by witness and counterexample theorems -/

/-- A sample roster member. -/
def wPlayer1 : Player := { id := 1, name := "alice", is_observer := false, joined_at := 0 }

/-- A second sample roster member. -/
def wPlayer2 : Player := { id := 2, name := "bob", is_observer := false, joined_at := 1 }

/-- A stale vote left over from a previous round. -/
def wVoteStale : Vote := { player_id := 1, player_name := "alice", value := "1", cast_at := 0 }

/-- First cast of player 1. -/
def wVoteA : Vote := { player_id := 1, player_name := "alice", value := "5", cast_at := 2 }

/-- Cast of player 2. -/
def wVoteB : Vote := { player_id := 2, player_name := "bob", value := "8", cast_at := 3 }

/-- Second cast of player 1, overwriting `wVoteA`. -/
def wVoteC : Vote := { player_id := 1, player_name := "alice", value := "13", cast_at := 4 }

/-- A game in `Waiting` with two roster members and a stale vote. -/
def wGameWaiting : PlanningPokerGame :=
  { id := 0, name := "demo", owner_id := 1, state := GameState.Waiting,
    players := [(1, wPlayer1), (2, wPlayer2)], votes := [(1, wVoteStale)],
    current_story := none, voting_system := VotingSystem.Fibonacci }

/-- `wGameWaiting` after `start_voting "story-1"`. -/
def wGameVoting : PlanningPokerGame :=
  { wGameWaiting with current_story := some "story-1", state := GameState.Voting, votes := [] }

/-- The cast sequence of the C1 witness run: player 1, player 2, then
player 1 again. -/
def wCasts : List (Nat × Vote) := [(1, wVoteA), (2, wVoteB), (1, wVoteC)]

/-- `wGameVoting` after the casts of `wCasts`. -/
def wGameCast : PlanningPokerGame :=
  { wGameVoting with votes := [(1, wVoteC), (2, wVoteB)] }

/-- `wGameCast` after `reveal_votes`. -/
def wGameRevealed : PlanningPokerGame :=
  { wGameCast with state := GameState.Revealed }

/-- `wGameCast` after `remove_player 2`. -/
def wGameRemoved : PlanningPokerGame :=
  { wGameCast with players := [(1, wPlayer1)], votes := [(1, wVoteC)] }

/-- Connection bound to game 7 as player 1. -/
def wConn1 : Connection := { id := "c1", player_id := some 1, game_id := some 7 }

/-- Connection bound to game 7 as player 2. -/
def wConn2 : Connection := { id := "c2", player_id := some 2, game_id := some 7 }

/-- Connection bound to a different game. -/
def wConn3 : Connection := { id := "c3", player_id := some 3, game_id := some 8 }

/-- Registered connection with no binding. -/
def wConn4 : Connection := { id := "c4", player_id := none, game_id := none }

/-- The registry of the websocket-layer examples. -/
def wConns : List (String × Connection) :=
  [("c1", wConn1), ("c2", wConn2), ("c3", wConn3), ("c4", wConn4)]

/-- Game row 7, still in `Waiting` with no story. -/
def wRow7 : GameRow :=
  { id := 7, name := "g7", owner_id := 1, voting_system := "fibonacci",
    state := "Waiting", current_story := none }

/-- Game row 8, mid-vote with a story, used by the reset example. -/
def wRow8 : GameRow :=
  { id := 8, name := "g8", owner_id := 3, voting_system := "fibonacci",
    state := "Voting", current_story := some "story-8" }

/-- A persisted vote row of game 7. -/
def wVoteRow7 : VoteRow :=
  { game_id := 7, player_id := 1, player_name := "alice", value := "5", cast_at := 0 }

/-- A persisted vote row of game 8. -/
def wVoteRow8 : VoteRow :=
  { game_id := 8, player_id := 3, player_name := "carol", value := "3", cast_at := 0 }

/-- Store holding both game rows and one vote row per game. -/
def wStore : Store :=
  { games := [wRow7, wRow8], players := [], votes := [wVoteRow7, wVoteRow8] }

/-- The websocket-layer state of the examples. -/
def wWs : WsState := { conns := wConns, store := wStore }

/-- Game row 8 after the store-level `reset_voting`. -/
def wRow8Reset : GameRow :=
  { wRow8 with state := "Waiting", current_story := none }

/-! ## Helper lemmas on the poker state machine -/

theorem start_voting_ok_elim (g g' : PlanningPokerGame) (story : String)
    (h : g.start_voting story = Except.ok g') :
    g.state = GameState.Waiting ∧
      g' = { g with current_story := some story, state := GameState.Voting, votes := [] } := by
  unfold PlanningPokerGame.start_voting at h
  by_cases hs : g.state = GameState.Waiting
  · refine ⟨hs, ?_⟩
    simp [hs] at h
    exact h.symm
  · simp [hs] at h

theorem cast_vote_ok_elim (g g' : PlanningPokerGame) (p : Nat) (v : Vote)
    (h : g.cast_vote p v = Except.ok g') :
    g.state = GameState.Voting ∧ alContains g.players p = true ∧
      g' = { g with votes := alInsert g.votes p v } := by
  unfold PlanningPokerGame.cast_vote at h
  by_cases hs : g.state = GameState.Voting
  · by_cases hc : alContains g.players p
    · refine ⟨hs, hc, ?_⟩
      simp [hs, hc] at h
      rw [hs]
      exact h.symm
    · simp [hs, hc] at h
  · simp [hs] at h

theorem reveal_votes_ok_elim (g g' : PlanningPokerGame)
    (h : g.reveal_votes = Except.ok g') :
    g.state = GameState.Voting ∧ g' = { g with state := GameState.Revealed } := by
  unfold PlanningPokerGame.reveal_votes at h
  by_cases hs : g.state = GameState.Voting
  · refine ⟨hs, ?_⟩
    simp [hs] at h
    exact h.symm
  · simp [hs] at h

theorem castAll_lookup (casts : List (Nat × Vote)) :
    ∀ g g' : PlanningPokerGame, g.state = GameState.Voting →
      castAll g casts = Except.ok g' → ∀ p : Nat,
      alLookup g'.votes p =
        match lastCastBy casts p with
        | some w => some w
        | none => alLookup g.votes p := by
  induction casts with
  | nil =>
      intro g g' hs h p
      simp only [castAll] at h
      cases h
      simp [lastCastBy]
  | cons c rest ih =>
      obtain ⟨q, v⟩ := c
      intro g g' hs h p
      simp only [castAll] at h
      cases hcv : g.cast_vote q v with
      | error e => rw [hcv] at h; cases h
      | ok g1 =>
          rw [hcv] at h
          obtain ⟨hst, hcont, hg1⟩ := cast_vote_ok_elim g g1 q v hcv
          have hst1 : g1.state = GameState.Voting := by rw [hg1]; exact hs
          have hmain := ih g1 g' hst1 h p
          have hvotes : g1.votes = alInsert g.votes q v := by rw [hg1]
          rw [hmain, hvotes]
          simp only [lastCastBy]
          cases hlast : lastCastBy rest p with
          | some w => simp
          | none =>
              by_cases hqp : q = p
              · subst hqp
                simp [alLookup_alInsert]
              · simp [alLookup_alInsert, hqp]

/-! ## Claim theorems: the poker state machine -/

/-- C1: after a successful `start_voting`, a sequence of `cast_vote`
calls and a successful `reveal_votes`, the vote map at reveal time
holds, for every player, exactly the last vote that player cast since
`start_voting` cleared the vote set — at most one vote per player,
last cast wins, and nothing else. -/
theorem votes_at_reveal_are_last_casts
    (g g1 g2 g3 : PlanningPokerGame) (story : String) (casts : List (Nat × Vote))
    (h1 : g.start_voting story = Except.ok g1)
    (h2 : castAll g1 casts = Except.ok g2)
    (h3 : g2.reveal_votes = Except.ok g3) :
    ∀ p : Nat, alLookup g3.votes p = lastCastBy casts p := by
  intro p
  obtain ⟨hw, hg1⟩ := start_voting_ok_elim g g1 story h1
  have hst1 : g1.state = GameState.Voting := by rw [hg1]
  have hv1 : g1.votes = [] := by rw [hg1]
  obtain ⟨hst2, hg3⟩ := reveal_votes_ok_elim g2 g3 h3
  have hv3 : g3.votes = g2.votes := by rw [hg3]
  have hmain := castAll_lookup casts g1 g2 hst1 h2 p
  rw [hv3, hmain, hv1]
  cases lastCastBy casts p <;> simp [alLookup]

/-- Witness for C1: the concrete run `start_voting` →
`cast 1 A, cast 2 B, cast 1 C` → `reveal_votes` from `wGameWaiting`
leaves player 1 with the overwriting vote `wVoteC`. -/
theorem votes_at_reveal_are_last_casts_witness :
    alLookup wGameRevealed.votes 1 = some wVoteC :=
  (votes_at_reveal_are_last_casts wGameWaiting wGameVoting wGameCast wGameRevealed
      "story-1" wCasts rfl rfl rfl 1).trans (by decide)

/-- C2: `start_voting` succeeds exactly from `Waiting`, where it sets
the story, clears the votes and moves to `Voting`; from any other state
it fails with the invalid-transition error (and, the operation being
pure on failure, the game is left untouched). -/
theorem start_voting_characterization (g : PlanningPokerGame) (story : String) :
    g.start_voting story =
      if g.state = GameState.Waiting then
        Except.ok { g with current_story := some story, state := GameState.Voting, votes := [] }
      else
        Except.error PokerErr.invalidTransition := by
  by_cases hs : g.state = GameState.Waiting <;>
    simp [PlanningPokerGame.start_voting, hs]

/-- C3: `cast_vote` fails with the invalid-transition error in
`Waiting` and `Revealed` (the vote map of the input is untouched), fails
with the player-not-found error in `Voting` for a player outside the
roster, and a repeated cast by a roster player in `Voting` succeeds and
overwrites the prior vote while leaving every other player's vote
unchanged. -/
theorem cast_vote_characterization (g : PlanningPokerGame) (p : Nat) (v v' : Vote) :
    ((g.state = GameState.Waiting ∨ g.state = GameState.Revealed) →
        g.cast_vote p v = Except.error PokerErr.invalidTransition) ∧
    (g.state = GameState.Voting → alContains g.players p = false →
        g.cast_vote p v = Except.error PokerErr.playerNotFound) ∧
    (g.state = GameState.Voting → alContains g.players p = true →
      ∃ g1 g2 : PlanningPokerGame,
        g.cast_vote p v = Except.ok g1 ∧ g1.cast_vote p v' = Except.ok g2 ∧
          alLookup g2.votes p = some v' ∧
          ∀ q : Nat, q ≠ p → alLookup g2.votes q = alLookup g.votes q) := by
  refine ⟨?_, ?_, ?_⟩
  · intro hs
    have : g.state ≠ GameState.Voting := by
      cases hs with
      | inl h => rw [h]; intro hc; cases hc
      | inr h => rw [h]; intro hc; cases hc
    simp [PlanningPokerGame.cast_vote, this]
  · intro hs hc
    simp [PlanningPokerGame.cast_vote, hs, hc]
  · intro hs hc
    refine ⟨{ g with votes := alInsert g.votes p v },
            { g with votes := alInsert (alInsert g.votes p v) p v' }, ?_, ?_, ?_, ?_⟩
    · simp [PlanningPokerGame.cast_vote, hs, hc]
    · simp [PlanningPokerGame.cast_vote, hs, hc]
    · rw [alLookup_alInsert]
      simp
    · intro q hq
      have hq' : ¬ p = q := fun h => hq h.symm
      rw [alLookup_alInsert, alLookup_alInsert]
      simp [hq']

/-- Witness for C3: with the concrete games, a cast in `Waiting` fails
with the invalid-transition error, and in `Voting` a repeated cast by
player 1 succeeds, ending with the second vote recorded. -/
theorem cast_vote_characterization_witness :
    wGameWaiting.cast_vote 1 wVoteA = Except.error PokerErr.invalidTransition ∧
    (∃ g1 g2 : PlanningPokerGame,
      wGameVoting.cast_vote 1 wVoteA = Except.ok g1 ∧ g1.cast_vote 1 wVoteC = Except.ok g2 ∧
        alLookup g2.votes 1 = some wVoteC) :=
  ⟨(cast_vote_characterization wGameWaiting 1 wVoteA wVoteA).1 (Or.inl rfl),
   match (cast_vote_characterization wGameVoting 1 wVoteA wVoteC).2.2 rfl (by decide) with
   | ⟨g1, g2, ha, hb, hc, _⟩ => ⟨g1, g2, ha, hb, hc⟩⟩

theorem filter_beq_of_filter_bne (l : List VoteRow) (gid : Nat) :
    (l.filter (fun v => v.game_id != gid)).filter (fun v => v.game_id == gid) = [] := by
  induction l with
  | nil => rfl
  | cons x t ih =>
      by_cases h : x.game_id = gid
      · simp [List.filter_cons, h, ih]
      · simp [List.filter_cons, h, ih]

/-- C4: `reset_voting`, from any state, yields `Waiting` with an empty
vote set and no story — at the state machine (`PlanningPokerGame`) and
at the store (`DatabaseSessionManager`): after the store-level reset
the game has no vote rows and its row reads state Waiting, story null. -/
theorem reset_voting_full_reset (g : PlanningPokerGame) (store : Store) (game_id : Nat) :
    g.reset_voting =
      Except.ok { g with state := GameState.Waiting, votes := [], current_story := none } ∧
    (store.reset_voting game_id).votes.filter (fun v => v.game_id == game_id) = [] ∧
    (∀ row : GameRow, row ∈ (store.reset_voting game_id).games → row.id = game_id →
      row.state = "Waiting" ∧ row.current_story = none) := by
  refine ⟨rfl, ?_, ?_⟩
  · exact filter_beq_of_filter_bne store.votes game_id
  · intro row hmem hid
    simp only [Store.reset_voting] at hmem
    rcases List.mem_map.1 hmem with ⟨orig, horig, hfr⟩
    by_cases ho : orig.id = game_id
    · rw [if_pos ho] at hfr
      rw [← hfr]
      exact ⟨rfl, rfl⟩
    · rw [if_neg ho] at hfr
      rw [← hfr] at hid
      exact absurd hid ho

/-- Witness for C4: resetting the mid-vote game `wGameCast` and the
store entry of game 8 lands in `Waiting` with no votes and no story. -/
theorem reset_voting_full_reset_witness :
    wGameCast.reset_voting =
      Except.ok { wGameCast with
        state := GameState.Waiting, votes := [], current_story := none } ∧
    (wStore.reset_voting 8).votes.filter (fun v => v.game_id == 8) = [] ∧
    (wRow8Reset.state = "Waiting" ∧ wRow8Reset.current_story = none) :=
  ⟨(reset_voting_full_reset wGameCast wStore 8).1,
   (reset_voting_full_reset wGameCast wStore 8).2.1,
   (reset_voting_full_reset wGameCast wStore 8).2.2 wRow8Reset (by decide) rfl⟩

/-- C5: `remove_player` deletes exactly the removed player's vote and
roster entry — every other player's vote and roster entry survive
unchanged — and afterwards `all_players_voted` is true exactly when the
player count equals the vote count. -/
theorem remove_player_frame (g g' : PlanningPokerGame) (p : Nat)
    (h : g.remove_player p = Except.ok g') :
    alLookup g'.votes p = none ∧
    (∀ q : Nat, q ≠ p → alLookup g'.votes q = alLookup g.votes q) ∧
    (∀ q : Nat, q ≠ p → alLookup g'.players q = alLookup g.players q) ∧
    (g'.all_players_voted = true ↔ g'.players.length = g'.votes.length) := by
  have hg' : g' = { g with players := alRemove g.players p, votes := alRemove g.votes p } := by
    unfold PlanningPokerGame.remove_player at h
    injection h with h
    exact h.symm
  subst hg'
  refine ⟨?_, ?_, ?_, ?_⟩
  · show alLookup (alRemove g.votes p) p = none
    rw [alLookup_alRemove]
    simp
  · intro q hq
    have hpq : ¬ p = q := fun hh => hq hh.symm
    show alLookup (alRemove g.votes p) q = alLookup g.votes q
    rw [alLookup_alRemove, if_neg hpq]
  · intro q hq
    have hpq : ¬ p = q := fun hh => hq hh.symm
    show alLookup (alRemove g.players p) q = alLookup g.players q
    rw [alLookup_alRemove, if_neg hpq]
  · simp [PlanningPokerGame.all_players_voted]

/-- Witness for C5: removing player 2 from `wGameCast` deletes exactly
player 2's vote; player 1's vote and roster entry are untouched. -/
theorem remove_player_frame_witness :
    alLookup wGameRemoved.votes 2 = none ∧
    alLookup wGameRemoved.votes 1 = alLookup wGameCast.votes 1 ∧
    alLookup wGameRemoved.players 1 = alLookup wGameCast.players 1 ∧
    (wGameRemoved.all_players_voted = true ↔
      wGameRemoved.players.length = wGameRemoved.votes.length) :=
  ⟨(remove_player_frame wGameCast wGameRemoved 2 rfl).1,
   (remove_player_frame wGameCast wGameRemoved 2 rfl).2.1 1 (by decide),
   (remove_player_frame wGameCast wGameRemoved 2 rfl).2.2.1 1 (by decide),
   (remove_player_frame wGameCast wGameRemoved 2 rfl).2.2.2⟩

/-! ## Claim theorems: the connection layer -/

/-- C6: a broadcast for a game that excludes its originating connection
reaches every registered connection bound to that game other than the
originator, never the originator itself, and only connections whose
binding is exactly that game (so never a connection of another game or
an unbound one). -/
theorem broadcast_exclusion (conns : List (String × Connection)) (game_id : Nat)
    (origin : String) :
    (∀ (cid : String) (conn : Connection), (cid, conn) ∈ conns →
        conn.game_id = some game_id → cid ≠ origin →
        cid ∈ broadcastRecipients conns game_id (some origin)) ∧
    origin ∉ broadcastRecipients conns game_id (some origin) ∧
    (∀ cid : String, cid ∈ broadcastRecipients conns game_id (some origin) →
        ∃ conn : Connection,
          (cid, conn) ∈ conns ∧ conn.game_id = some game_id ∧ cid ≠ origin) := by
  refine ⟨?_, ?_, ?_⟩
  · intro cid conn hm hg hne
    refine List.mem_map.2 ⟨(cid, conn), List.mem_filter.2 ⟨hm, ?_⟩, rfl⟩
    simp [hg, hne]
  · intro hmem
    rcases List.mem_map.1 hmem with ⟨e, hef, he1⟩
    have hpred := (List.mem_filter.1 hef).2
    simp only [Bool.and_eq_true, beq_iff_eq, bne_iff_ne, ne_eq, Option.some.injEq] at hpred
    exact hpred.2 he1
  · intro cid hmem
    rcases List.mem_map.1 hmem with ⟨e, hef, he1⟩
    obtain ⟨hmm, hpred⟩ := List.mem_filter.1 hef
    simp only [Bool.and_eq_true, beq_iff_eq, bne_iff_ne, ne_eq, Option.some.injEq] at hpred
    refine ⟨e.2, ?_, hpred.1, ?_⟩
    · rw [← he1]
      exact hmm
    · rw [← he1]
      exact hpred.2

/-- Witness for C6: in the four-connection registry, a game-7 broadcast
excluding "c1" reaches "c2" and never "c1". -/
theorem broadcast_exclusion_witness :
    "c2" ∈ broadcastRecipients wConns 7 (some "c1") ∧
    "c1" ∉ broadcastRecipients wConns 7 (some "c1") :=
  ⟨(broadcast_exclusion wConns 7 "c1").1 "c2" wConn2 (by decide) rfl (by decide),
   (broadcast_exclusion wConns 7 "c1").2.1⟩

/-- C9 counterexample: `add_connection` on an id that is already
registered does not fail with a duplicate-connection error (the method
has no error path at all) and does not preserve the existing entry:
the game-bound entry of "c1" is replaced by a fresh unbound one. -/
theorem add_connection_duplicate_replaces :
    alLookup (add_connection wConns "c1") "c1" =
      some { id := "c1", player_id := none, game_id := none } ∧
    alLookup wConns "c1" = some wConn1 ∧
    wConn1.game_id = some 7 ∧
    wConn1 ≠ ({ id := "c1", player_id := none, game_id := none } : Connection) :=
  ⟨rfl, rfl, rfl, by decide⟩

/-- C9 amended: `add_connection` always succeeds; it stores a fresh
unbound connection under the id — replacing any existing entry of the
same id — and leaves every other connection's entry unchanged. -/
theorem add_connection_unbound_upsert (conns : List (String × Connection))
    (connection_id : String) :
    alLookup (add_connection conns connection_id) connection_id =
      some { id := connection_id, player_id := none, game_id := none } ∧
    ∀ other : String, other ≠ connection_id →
      alLookup (add_connection conns connection_id) other = alLookup conns other := by
  constructor
  · rw [add_connection, alLookup_alInsert]
    simp
  · intro other hne
    rw [add_connection, alLookup_alInsert, if_neg (fun hh => hne hh.symm)]

/-- Witness for C9 (amended): registering fresh id "c9" stores an
unbound entry and leaves the entry of "c2" untouched. -/
theorem add_connection_unbound_upsert_witness :
    alLookup (add_connection wConns "c9") "c9" =
      some { id := "c9", player_id := none, game_id := none } ∧
    alLookup (add_connection wConns "c9") "c2" = alLookup wConns "c2" :=
  ⟨(add_connection_unbound_upsert wConns "c9").1,
   (add_connection_unbound_upsert wConns "c9").2 "c2" (by decide)⟩

/-- C10: each command handler other than join (`handle_leave_game`,
`handle_cast_vote`, `handle_start_voting`, `handle_reveal_votes`,
`handle_reset_voting`), invoked for a connection id that is not
registered or is registered without a game binding, returns `Ok`,
mutates nothing and sends no message to any connection. -/
theorem unbound_commands_are_silent_noops (s : WsState) (connection_id : String)
    (value story : String) (now : Nat)
    (h : (alLookup s.conns connection_id).bind (fun c => c.game_id) = none) :
    handle_leave_game s connection_id = Except.ok (s, []) ∧
    handle_cast_vote s connection_id value now = Except.ok (s, []) ∧
    handle_start_voting s connection_id story = Except.ok (s, []) ∧
    handle_reveal_votes s connection_id = Except.ok (s, []) ∧
    handle_reset_voting s connection_id = Except.ok (s, []) := by
  cases hc : alLookup s.conns connection_id with
  | none =>
      refine ⟨?_, ?_, ?_, ?_, ?_⟩ <;>
        simp [handle_leave_game, handle_cast_vote, handle_start_voting,
          handle_reveal_votes, handle_reset_voting, hc]
  | some conn =>
      rw [hc] at h
      simp at h
      refine ⟨?_, ?_, ?_, ?_, ?_⟩ <;>
        simp [handle_leave_game, handle_cast_vote, handle_start_voting,
          handle_reveal_votes, handle_reset_voting, hc, h]

/-- Witness for C10: connection "c4" is registered but unbound; every
non-join handler is a silent `Ok` no-op for it. -/
theorem unbound_commands_are_silent_noops_witness :
    handle_leave_game wWs "c4" = Except.ok (wWs, []) ∧
    handle_cast_vote wWs "c4" "5" 0 = Except.ok (wWs, []) ∧
    handle_start_voting wWs "c4" "story-1" = Except.ok (wWs, []) ∧
    handle_reveal_votes wWs "c4" = Except.ok (wWs, []) ∧
    handle_reset_voting wWs "c4" = Except.ok (wWs, []) :=
  unbound_commands_are_silent_noops wWs "c4" "5" "story-1" 0 rfl

/-- C7 at its failing input: connection "c1" is bound to game 7 whose
persisted row is in state Waiting.  `handle_start_voting` broadcasts
`VotingStarted` to the whole game and deletes the game's vote rows, but
the game row keeps state Waiting with no story: the persisted
transition to Voting stated by the claim never happens, because the
handler never calls the session manager's `start_voting` (whose effect,
shown in the last conjunct, would have been exactly that transition). -/
theorem handle_start_voting_no_persisted_transition :
    handle_start_voting wWs "c1" "story-1" =
      Except.ok
        ({ conns := wConns,
           store := { games := [wRow7, wRow8], players := [], votes := [wVoteRow8] } },
         [("c1", ServerMsg.votingStarted "story-1"),
          ("c2", ServerMsg.votingStarted "story-1")]) ∧
    wRow7.state = "Waiting" ∧ wRow7.current_story = none ∧
    (wStore.start_voting 7 "story-1").games =
      [{ wRow7 with state := "Voting", current_story := some "story-1" }, wRow8] :=
  ⟨rfl, rfl, rfl, rfl⟩

/-- C8 at its failing input: game 7's persisted row is in state Waiting,
yet `handle_reveal_votes` succeeds and broadcasts the full vote list
(values included) to the whole game — no state-is-Voting precondition is
checked — and the whole state is returned unchanged: the persisted
transition to Revealed stated by the claim never happens, because the
handler never calls the session manager's `reveal_votes` (whose effect,
shown in the last conjunct, would have been exactly that transition). -/
theorem handle_reveal_votes_no_precondition_no_transition :
    handle_reveal_votes wWs "c1" =
      Except.ok (wWs,
        [("c1", ServerMsg.votesRevealed [wVoteRow7]),
         ("c2", ServerMsg.votesRevealed [wVoteRow7])]) ∧
    wRow7.state = "Waiting" ∧
    (wStore.reveal_votes 7).games = [{ wRow7 with state := "Revealed" }, wRow8] :=
  ⟨rfl, rfl, rfl⟩
